import Mathlib

/-!
Verification of the honeypot session/intelligence orchestration pipeline.

The development shallowly embeds the Python sources of the repository:

* `app/services/extractor.py`      — entity extraction (regex based) and merge
* `app/services/ai_service.py`     — heuristic keyword scoring and scam gate
* `app/services/conversation_engine.py` — the stage engine
* `app/services/callback_service.py`    — callback policy and agent notes
* `app/services/session_manager.py`     — session store with lazy expiry
* `app/api/v1/honeypot.py`        — the per-message orchestrator

Python regexes are embedded by a small backtracking matcher over a pattern
AST (`RePiece`) that covers exactly the constructs the six source patterns
use: literal characters, character classes with greedy bounded or unbounded
repetition, and the word-boundary assertion.  `re.findall` semantics
(leftmost match, greedy with backtracking, non-overlapping continuation
after each match) are reproduced by `findAllAux`.

Python `list`s deduplicated through `set(...)` are modelled as `Finset
String` (the spec's own data model declares insertion order irrelevant);
Python `float`s appear only as scam-confidence scores and are modelled as
rationals.  External collaborators (LLM classifier, reply generator, report
sink) are parameters of the orchestrator step: the classifier as a function
returning `Option LlmResult` (`none` models a raised exception), the
generated reply as the string it produced, and the report sink by counting
how many times the orchestrator invokes it during the turn.
-/

namespace Honeypot

/-! ### Character classes (Python `re` ASCII semantics) -/

/-- Python `\w` for ASCII text: letters, digits and underscore. -/
def isWordChar (c : Char) : Bool :=
  c.isAlpha || c.isDigit || c == '_'

/-- Python `\s` for ASCII text. -/
def isSpaceChar (c : Char) : Bool :=
  c == ' ' || c == '\t' || c == '\n' || c == '\r' || c == '\x0b' || c == '\x0c'

/-! ### A minimal backtracking regex engine

`RePiece` covers the constructs used by the six patterns in
`app/services/extractor.py`: literals, character classes repeated greedily
between `lo` and `hi` times (`hi = none` meaning unbounded), and the
word-boundary assertion `\b`. -/

inductive RePiece where
  | lit (c : Char)
  | cls (p : Char → Bool) (lo : Nat) (hi : Option Nat)
  | bnd

/-- Is the character at the head of `t` (with `prev` the character just
before the current position) on a word boundary, as Python `\b` defines it? -/
def bndHolds (prev : Option Char) (t : List Char) : Bool :=
  (match prev with | none => false | some c => isWordChar c)
    != (match t.head? with | none => false | some c => isWordChar c)

/-- Length of the run of characters satisfying `p` at the head of the list,
capped at the second argument. -/
def countRun (p : Char → Bool) : List Char → Nat → Nat
  | [], _ => 0
  | _, 0 => 0
  | c :: cs, n + 1 => if p c then countRun p cs n + 1 else 0

/-- Try `f` at `k`, then `k - 1`, ..., down to `0`, returning the first
success: the greedy backtracking order of a bounded repetition. -/
def searchDown (f : Nat → Option (List Char)) : Nat → Option (List Char)
  | 0 => f 0
  | k + 1 =>
    match f (k + 1) with
    | some r => some r
    | none => searchDown f k

/-- Match a pattern at the current position of `t` (with `prev` the
character before that position), returning the matched characters.  Greedy
repetition with backtracking, as in Python `re`.  The fuel argument makes
the recursion structural; one unit is spent per pattern piece, so
`pat.length` fuel always suffices (see `matchPieces`). -/
def matchPiecesF : Nat → List RePiece → List Char → Option Char → Option (List Char)
  | _, [], _, _ => some []
  | 0, _ :: _, _, _ => none
  | fuel + 1, RePiece.bnd :: ps, t, prev =>
    if bndHolds prev t then matchPiecesF fuel ps t prev else none
  | fuel + 1, RePiece.lit c :: ps, t, _ =>
    match t with
    | [] => none
    | x :: xs =>
      if x == c then
        match matchPiecesF fuel ps xs (some x) with
        | some rest => some (x :: rest)
        | none => none
      else none
  | fuel + 1, RePiece.cls p lo hi :: ps, t, prev =>
    let cap := match hi with | some h => h | none => t.length
    let maxRun := countRun p t cap
    searchDown
      (fun k =>
        if k < lo then none
        else
          let taken := t.take k
          let prev' := if k = 0 then prev else some (taken.getLastD ' ')
          match matchPiecesF fuel ps (t.drop k) prev' with
          | some rest => some (taken ++ rest)
          | none => none)
      maxRun

/-- Match a whole pattern at the current position. -/
def matchPieces (pat : List RePiece) (t : List Char) (prev : Option Char) :
    Option (List Char) :=
  matchPiecesF pat.length pat t prev

/-- Scan of `re.findall`: at each position try the pattern; on success
record the match and continue after it (non-overlapping), otherwise advance
one character.  The fuel `text.length + 1` bounds the scan (every step
either consumes at least one character or terminates); our patterns cannot
match the empty string, so the empty-match case never records. -/
def findAllAux (pat : List RePiece) : Nat → Option Char → List Char → List (List Char)
  | 0, _, _ => []
  | fuel + 1, prev, t =>
    match matchPieces pat t prev with
    | some m =>
      match m with
      | [] =>
        match t with
        | [] => []
        | c :: ts => findAllAux pat fuel (some c) ts
      | _ :: _ => m :: findAllAux pat fuel (some (m.getLastD ' ')) (List.drop m.length t)
    | none =>
      match t with
      | [] => []
      | c :: ts => findAllAux pat fuel (some c) ts

/-- `re.findall(pat, text)` for the pattern fragment of this code base. -/
def findall (pat : List RePiece) (text : String) : List String :=
  (findAllAux pat (text.length + 1) none text.data).map String.mk

/-! ### The six patterns of `app/services/extractor.py` -/

/-- Class `[a-zA-Z0-9.\-_]` of `UPI_REGEX`. -/
def upiLocalClass (c : Char) : Bool :=
  c.isAlpha || c.isDigit || c == '.' || c == '-' || c == '_'

/-- `UPI_REGEX = r"\b[a-zA-Z0-9.\-_]{2,}@[a-zA-Z]{2,}\b"`. -/
def UPI_REGEX : List RePiece :=
  [RePiece.bnd, RePiece.cls upiLocalClass 2 none, RePiece.lit '@',
   RePiece.cls (fun c => c.isAlpha) 2 none, RePiece.bnd]

/-- `URL_REGEX = r"https?://[^\s]+"`. -/
def URL_REGEX : List RePiece :=
  [RePiece.lit 'h', RePiece.lit 't', RePiece.lit 't', RePiece.lit 'p',
   RePiece.cls (fun c => c == 's') 0 (some 1),
   RePiece.lit ':', RePiece.lit '/', RePiece.lit '/',
   RePiece.cls (fun c => !isSpaceChar c) 1 none]

/-- `IFSC_REGEX = r"\b[A-Z]{4}0[A-Z0-9]{6}\b"`. -/
def IFSC_REGEX : List RePiece :=
  [RePiece.bnd, RePiece.cls (fun c => c.isUpper) 4 (some 4), RePiece.lit '0',
   RePiece.cls (fun c => c.isUpper || c.isDigit) 6 (some 6), RePiece.bnd]

/-- `PHONE_REGEX = r"\b[6-9]\d{9}\b"`. -/
def PHONE_REGEX : List RePiece :=
  [RePiece.bnd, RePiece.cls (fun c => '6' ≤ c && c ≤ '9') 1 (some 1),
   RePiece.cls (fun c => c.isDigit) 9 (some 9), RePiece.bnd]

/-- `BANK_ACCOUNT_REGEX = r"\b\d{9,18}\b"`. -/
def BANK_ACCOUNT_REGEX : List RePiece :=
  [RePiece.bnd, RePiece.cls (fun c => c.isDigit) 9 (some 18), RePiece.bnd]

/-- Class `[A-Za-z0-9._%+-]` of `EMAIL_REGEX`. -/
def emailLocalClass (c : Char) : Bool :=
  c.isAlpha || c.isDigit || c == '.' || c == '_' || c == '%' || c == '+' || c == '-'

/-- Class `[A-Za-z0-9.-]` of `EMAIL_REGEX`. -/
def emailDomainClass (c : Char) : Bool :=
  c.isAlpha || c.isDigit || c == '.' || c == '-'

/-- Class `[A-Z|a-z]` of `EMAIL_REGEX` (the literal `|` is part of the
class in the source). -/
def emailTldClass (c : Char) : Bool :=
  c.isAlpha || c == '|'

/-- `EMAIL_REGEX = r"\b[A-Za-z0-9._%+-]+@[A-Za-z0-9.-]+\.[A-Z|a-z]{2,}\b"`. -/
def EMAIL_REGEX : List RePiece :=
  [RePiece.bnd, RePiece.cls emailLocalClass 1 none, RePiece.lit '@',
   RePiece.cls emailDomainClass 1 none, RePiece.lit '.',
   RePiece.cls emailTldClass 2 none, RePiece.bnd]

/-! ### `extract_entities` -/

/-- `list(set(xs))`: deduplication of a Python list through a set.  The
set's iteration order is unspecified in Python; the model fixes the
deterministic order of `List.dedup`.  Every property proved below depends
only on membership, which `List.mem_dedup` preserves. -/
def setList (xs : List String) : List String :=
  xs.dedup

/-- The dictionary returned by `extract_entities`: one key per pattern,
each holding `list(set(...))` of the matches. -/
structure Extracted where
  upi_ids : List String
  urls : List String
  ifsc_codes : List String
  phone_numbers : List String
  bank_accounts : List String
  emails : List String
deriving DecidableEq

/-- The all-empty extraction result. -/
def Extracted.empty : Extracted :=
  ⟨[], [], [], [], [], []⟩

/-- `extract_entities(text)` of `app/services/extractor.py`.  Bank-account
candidates are filtered by length and by absence from the phone-number
list before deduplication, exactly as in the source. -/
def extract_entities (text : String) : Extracted :=
  if text = "" then Extracted.empty
  else
    let upi_ids := setList (findall UPI_REGEX text)
    let urls := setList (findall URL_REGEX text)
    let ifsc_codes := setList (findall IFSC_REGEX text)
    let phone_numbers := setList (findall PHONE_REGEX text)
    let potential_accounts := findall BANK_ACCOUNT_REGEX text
    let bank_accounts :=
      setList (potential_accounts.filter
        (fun acc => 9 ≤ acc.length && !phone_numbers.contains acc))
    let emails := setList (findall EMAIL_REGEX text)
    ⟨upi_ids, urls, ifsc_codes, phone_numbers, bank_accounts, emails⟩

/-! ### `merge_intelligence`

`merge_intelligence` of `app/services/extractor.py` works on arbitrary
string-keyed dictionaries of lists: for every key of either argument the
result holds `list(set(existing.get(key, []) + new.get(key, [])))`.
Viewed per category — `dict.get` with default `[]` makes every dictionary a
total function from keys to sets of strings, absent keys mapping to the
empty set — the operation is the pointwise set union below. -/

/-- An intelligence dictionary viewed as a total map from category key to
the set of its values (missing keys give the empty set, as `dict.get(key,
[])` does). -/
abbrev IntelDict : Type := String → Finset String

/-- Per-category view of `merge_intelligence(existing, new)`:
`list(set(existing_values + new_values))` is the set union. -/
def merge_intelligence (existing newIntel : IntelDict) : IntelDict :=
  fun key => existing key ∪ newIntel key

/-- The empty intelligence dictionary. -/
def empty_intelligence : IntelDict := fun _ => ∅

/-! ### Data model (`app/models/schemas.py`) -/

/-- `Message` of `app/models/schemas.py`. -/
structure Message where
  sender : String
  text : String
  timestamp : Int
deriving DecidableEq

/-- `ExtractedIntelligence` of `app/models/schemas.py`: five list fields,
deduplicated through `set(...)` wherever they are updated.  The schema has
no `emails` field. -/
structure ExtractedIntelligence where
  bankAccounts : List String := []
  upiIds : List String := []
  phishingLinks : List String := []
  phoneNumbers : List String := []
  suspiciousKeywords : List String := []
deriving DecidableEq

/-- `SessionData` of `app/models/schemas.py`.  `createdAt` is a timestamp
in the same (abstract) time units as the session timeout; `memory` is an
insertion-ordered dictionary, modelled as an association list. -/
structure SessionData where
  sessionId : String
  conversationHistory : List Message
  stage : String
  memory : List (String × List String)
  totalMessages : Nat
  scamDetected : Bool
  extractedIntelligence : ExtractedIntelligence
  suspiciousKeywords : List String
  agentNotes : String
  createdAt : Nat
deriving DecidableEq

/-! ### `heuristic_scam_score` and `predict_scam` (`app/services/ai_service.py`) -/

/-- The `SCAM_KEYWORDS` weight table, in source (insertion) order. -/
def SCAM_KEYWORDS : List (String × Nat) :=
  [("otp", 5), ("one time password", 5), ("kyc", 4), ("verify your account", 4),
   ("verify immediately", 5), ("verification required", 4),
   ("urgent", 3), ("immediately", 3), ("account blocked", 5),
   ("account suspended", 5), ("account will be blocked", 5), ("limited time", 3),
   ("expires today", 4), ("last chance", 4),
   ("bank officer", 4), ("customer care", 3), ("government official", 4),
   ("tax department", 4), ("police", 4),
   ("refund", 3), ("cashback", 2), ("prize", 3), ("lottery", 4), ("won", 2),
   ("claim", 2),
   ("click the link", 5), ("install app", 5), ("anydesk", 5), ("teamviewer", 5),
   ("remote access", 5), ("screen share", 4), ("download", 3),
   ("upi", 3), ("bank account", 2), ("credit card", 2), ("debit card", 2),
   ("cvv", 5), ("pin", 4), ("password", 4), ("net banking", 3)]

/-- Does the first list occur at the head of the second? -/
def leadsList : List Char → List Char → Bool
  | [], _ => true
  | _ :: _, [] => false
  | a :: as, b :: bs => a == b && leadsList as bs

/-- Does the first list occur anywhere inside the second?  (Python `in` on
strings is substring containment.) -/
def occursList (needle : List Char) : List Char → Bool
  | [] => needle.isEmpty
  | b :: bs => leadsList needle (b :: bs) || occursList needle bs

/-- Python `needle in hay` on strings. -/
def containsSub (needle hay : String) : Bool :=
  occursList needle.data hay.data

/-- Python `text.lower()`: character-wise lower-casing (the source texts
are ASCII, where `Char.toLower` agrees with Python). -/
def toLowerStr (s : String) : String :=
  String.mk (s.data.map Char.toLower)

/-- `heuristic_scam_score(text)`: weighted substring count over the
lower-cased text, returning the score and the matched keywords in table
order. -/
def heuristic_scam_score (text : String) : Nat × List String :=
  let lower_text := toLowerStr text
  SCAM_KEYWORDS.foldl
    (fun acc kw =>
      if containsSub kw.1 lower_text then (acc.1 + kw.2, acc.2 ++ [kw.1]) else acc)
    (0, [])

/-- Result of `llm_fraud_classification` (the classifier collaborator):
label, confidence and free-form reason. -/
structure LlmResult where
  label : String
  confidence : ℚ
  reason : String

/-- Result dictionary of `predict_scam`.  `matched_keywords` models
`result["details"].get("matched_keywords")`: `some` exactly when the
details dictionary carries the heuristic's matched keywords. -/
structure ScamResult where
  is_scam : Bool
  confidence : ℚ
  method : String
  matched_keywords : Option (List String)
deriving DecidableEq

/-- The context string `predict_scam` builds from the last five history
messages plus the current text (the text alone when the history is empty). -/
def build_full_context (text : String) (history : List Message) : String :=
  if history.isEmpty then text
  else
    let lines := (history.drop (history.length - 5)).map
      (fun m => m.sender ++ ": " ++ m.text)
    String.intercalate "\n" lines ++ "\nCurrent: " ++ text

/-- `predict_scam(text, conversation_history)`.  The external classifier is
a parameter returning `Option LlmResult` (`none` models the `except` path).
The second component records whether the classifier collaborator was
invoked on this call. -/
def predict_scam (text : String) (history : List Message)
    (classify : String → Option LlmResult) : ScamResult × Bool :=
  let heur := heuristic_scam_score text
  if 6 ≤ heur.1 then
    (⟨true, min ((heur.1 : ℚ) / 15) (95 / 100), "heuristic", some heur.2⟩, false)
  else
    let full_context := build_full_context text history
    let fallback : ScamResult :=
      if 0 < heur.1 then ⟨false, (heur.1 : ℚ) / 15, "heuristic_low", some heur.2⟩
      else ⟨false, 0, "none", none⟩
    match classify full_context with
    | some llm =>
      if toLowerStr llm.label = "scam" ∧ 75 / 100 ≤ llm.confidence then
        (⟨true, llm.confidence, "llm", none⟩, true)
      else (fallback, true)
    | none => (fallback, true)

/-! ### `determine_conversation_stage` (`app/services/conversation_engine.py`) -/

/-- `determine_conversation_stage(message_count, extracted_intel)`: the
stage engine, applied in the orchestrator to the extraction of the current
message. -/
def determine_conversation_stage (message_count : Nat) (extracted_intel : Extracted) :
    String :=
  let has_critical_info :=
    0 < extracted_intel.upi_ids.length ∨ 0 < extracted_intel.urls.length ∨
      0 < extracted_intel.bank_accounts.length
  if message_count ≤ 2 then "trust"
  else if message_count ≤ 6 ∨ ¬has_critical_info then "extract"
  else "stall"

/-! ### Callback policy (`app/services/callback_service.py`) -/

/-- `should_send_callback(session)`: scam detected, at least three messages
exchanged, and some intelligence or the configured maximum turns reached.
`settings.MAX_TURNS` is passed explicitly. -/
def should_send_callback (session : SessionData) (maxTurns : Nat) : Bool :=
  let has_intelligence :=
    0 < session.extractedIntelligence.upiIds.length ∨
      0 < session.extractedIntelligence.phishingLinks.length ∨
      0 < session.extractedIntelligence.phoneNumbers.length ∨
      0 < session.extractedIntelligence.bankAccounts.length ∨
      0 < session.extractedIntelligence.suspiciousKeywords.length
  let reached_max_turns := maxTurns ≤ session.totalMessages
  session.scamDetected &&
    (decide (3 ≤ session.totalMessages)) &&
    (decide (has_intelligence ∨ reached_max_turns))

/-- Final combination step of `build_agent_notes`: `". ".join(notes) + "."`
when any notes were collected, the fixed fallback sentence otherwise. -/
def joinNotes (notes : List String) : String :=
  if notes.isEmpty then "Limited engagement, minimal intelligence extracted."
  else String.intercalate ". " notes ++ "."

/-- `build_agent_notes(session)`: deterministic behavioural summary — up to
five tactics keywords, the obtained intelligence categories with counts,
and a persistence qualifier. -/
def build_agent_notes (session : SessionData) : String :=
  let intel := session.extractedIntelligence
  let tactics : List String :=
    if intel.suspiciousKeywords.isEmpty then []
    else ["Used tactics: " ++
      String.intercalate ", " (intel.suspiciousKeywords.take 5)]
  let requested_items : List String :=
    (if intel.upiIds.isEmpty then []
     else ["UPI IDs (" ++ toString intel.upiIds.length ++ ")"]) ++
    (if intel.phishingLinks.isEmpty then []
     else ["malicious links (" ++ toString intel.phishingLinks.length ++ ")"]) ++
    (if intel.bankAccounts.isEmpty then []
     else ["bank accounts (" ++ toString intel.bankAccounts.length ++ ")"])
  let withRequested :=
    tactics ++
      (if requested_items.isEmpty then []
       else ["Requested: " ++ String.intercalate ", " requested_items])
  let notes :=
    withRequested ++
      (if 7 < session.totalMessages then
        ["Highly persistent (" ++ toString session.totalMessages ++ " messages)"]
       else if 4 < session.totalMessages then ["Moderately persistent"]
       else [])
  joinNotes notes

/-! ### Session store (`app/services/session_manager.py`) -/

/-- The in-memory session table (`SessionManager._sessions`), an
insertion-ordered dictionary from session id to session. -/
abbrev Store : Type := List (String × SessionData)

/-- Dictionary lookup in the session table. -/
def storeGet (st : Store) (id : String) : Option SessionData :=
  (st.find? (fun e => e.1 == id)).map (fun e => e.2)

/-- `dict.pop(session_id, None)`: drop the entry with the given key. -/
def storeErase (st : Store) (id : String) : Store :=
  st.filter (fun e => e.1 != id)

/-- `self._sessions[session_id] = session`: replace in place when the key
exists, append otherwise. -/
def storeSet (st : Store) (id : String) (s : SessionData) : Store :=
  if st.any (fun e => e.1 == id) then
    st.map (fun e => if e.1 == id then (id, s) else e)
  else st ++ [(id, s)]

/-- `create_session(session_id)`: the fresh session record, with
`createdAt` the current time. -/
def create_session (session_id : String) (now : Nat) : SessionData :=
  { sessionId := session_id
    conversationHistory := []
    stage := "trust"
    memory := []
    totalMessages := 0
    scamDetected := false
    extractedIntelligence := {}
    suspiciousKeywords := []
    agentNotes := ""
    createdAt := now }

/-- `get_session(session_id)` with lazy expiry: a session strictly older
than the timeout is evicted and reported absent.  Returns the lookup result
together with the (possibly shrunk) table. -/
def get_session (st : Store) (id : String) (now timeout : Nat) :
    Option SessionData × Store :=
  match storeGet st id with
  | none => (none, st)
  | some session =>
    if timeout < now - session.createdAt then (none, storeErase st id)
    else (some session, st)

/-- `get_or_create_session(session_id)`: the lazy-expiry lookup followed by
creation (and insertion) of a fresh session when absent. -/
def get_or_create_session (st : Store) (id : String) (now timeout : Nat) :
    SessionData × Store :=
  match get_session st id now timeout with
  | (some session, st') => (session, st')
  | (none, st') =>
    let session := create_session id now
    (session, storeSet st' id session)

/-- `add_message(session, message)`: append to the history and bump the
message counter. -/
def add_message (session : SessionData) (message : Message) : SessionData :=
  { session with
      conversationHistory := session.conversationHistory ++ [message]
      totalMessages := session.totalMessages + 1 }

/-- `set(existing); update(new); list(...)`: the deduplicating union used
by every intelligence and memory update site. -/
def dedupUnion (existing newVals : List String) : List String :=
  setList (existing ++ newVals)

/-- `update_intelligence(session, new_intel)`: union each non-empty
extractor category into the matching session category.  The extractor's
`ifsc_codes` and `emails` keys have no counterpart and are dropped, as in
the source. -/
def update_intelligence (intel : ExtractedIntelligence) (new_intel : Extracted) :
    ExtractedIntelligence :=
  let i1 :=
    if new_intel.upi_ids.isEmpty then intel
    else { intel with upiIds := dedupUnion intel.upiIds new_intel.upi_ids }
  let i2 :=
    if new_intel.urls.isEmpty then i1
    else { i1 with phishingLinks := dedupUnion i1.phishingLinks new_intel.urls }
  let i3 :=
    if new_intel.phone_numbers.isEmpty then i2
    else { i2 with phoneNumbers := dedupUnion i2.phoneNumbers new_intel.phone_numbers }
  if new_intel.bank_accounts.isEmpty then i3
  else { i3 with bankAccounts := dedupUnion i3.bankAccounts new_intel.bank_accounts }

/-! ### Orchestrator (`app/api/v1/honeypot.py`, `handle_message`) -/

/-- `memory.get(key, [])` on the session's memory dictionary. -/
def memGet (mem : List (String × List String)) (key : String) : List String :=
  match mem.find? (fun e => e.1 == key) with
  | some e => e.2
  | none => []

/-- `memory[key] = value`: replace in place when the key exists, append
otherwise. -/
def memSet (mem : List (String × List String)) (key : String) (v : List String) :
    List (String × List String) :=
  if mem.any (fun e => e.1 == key) then
    mem.map (fun e => if e.1 == key then (key, v) else e)
  else mem ++ [(key, v)]

/-- One iteration of the memory-update loop: skipped for an empty value
list, otherwise `memory[key] = list(set(existing + values))`. -/
def memMergeOne (mem : List (String × List String)) (key : String)
    (vals : List String) : List (String × List String) :=
  if vals.isEmpty then mem else memSet mem key (dedupUnion (memGet mem key) vals)

/-- The orchestrator's loop `for key, values in extracted.items(): ...`,
in the extractor dictionary's key order. -/
def updateMemory (mem : List (String × List String)) (ex : Extracted) :
    List (String × List String) :=
  let m1 := memMergeOne mem "upi_ids" ex.upi_ids
  let m2 := memMergeOne m1 "urls" ex.urls
  let m3 := memMergeOne m2 "ifsc_codes" ex.ifsc_codes
  let m4 := memMergeOne m3 "phone_numbers" ex.phone_numbers
  let m5 := memMergeOne m4 "bank_accounts" ex.bank_accounts
  memMergeOne m5 "emails" ex.emails

/-- Scam-detection section of `handle_message` (the block guarded by
`if not session.scamDetected`).  Returns the updated session and whether
the classifier collaborator was invoked. -/
def score_phase (session : SessionData) (msgText : String) (history : List Message)
    (classify : String → Option LlmResult) : SessionData × Bool :=
  if session.scamDetected then (session, false)
  else
    let pr := predict_scam msgText history classify
    if pr.1.is_scam then
      let s2 := { session with scamDetected := true }
      let s3 :=
        match pr.1.matched_keywords with
        | some kws =>
          if kws.isEmpty then s2
          else
            { s2 with extractedIntelligence :=
                { s2.extractedIntelligence with
                    suspiciousKeywords :=
                      dedupUnion s2.extractedIntelligence.suspiciousKeywords kws } }
        | none => s2
      (s3, pr.2)
    else (session, pr.2)

/-- Engaged section of `handle_message`: extraction of the current message,
merge into the session, memory update, stage recomputation, append of the
generated reply, the `should_send_callback` check and the forced max-turns
check.  Returns the updated session and how many times `send_final_result`
was invoked during the turn. -/
def engage_phase (session : SessionData) (msg : Message) (agentReplyText : String)
    (maxTurns : Nat) : SessionData × Nat :=
  let extracted := extract_entities msg.text
  let s3 := { session with
      extractedIntelligence :=
        update_intelligence session.extractedIntelligence extracted }
  let s4 := { s3 with memory := updateMemory s3.memory extracted }
  let s5 := { s4 with
      stage := determine_conversation_stage s4.totalMessages extracted }
  let s6 := add_message s5
    { sender := "user", text := agentReplyText, timestamp := msg.timestamp + 1000 }
  let cb := should_send_callback s6 maxTurns
  let s7 := if cb then { s6 with agentNotes := build_agent_notes s6 } else s6
  let d1 := if cb then 1 else 0
  let forced :=
    maxTurns ≤ s7.totalMessages ∧ s7.scamDetected = true ∧ s7.agentNotes = ""
  let s8 := if forced then { s7 with agentNotes := build_agent_notes s7 } else s7
  let d2 := if forced then 1 else 0
  (s8, d1 + d2)

/-- Result of one orchestration turn: the updated session, the HTTP reply
text, the number of `send_final_result` invocations, whether the scam
scorer ran, and whether the external classifier was invoked. -/
structure TurnResult where
  session : SessionData
  reply : String
  deliveries : Nat
  scorerInvoked : Bool
  classifierInvoked : Bool
deriving DecidableEq

/-- `handle_message` of `app/api/v1/honeypot.py`, for one session value:
append the incoming message, run the scam gate, and either return the
neutral acknowledgment (scam not confirmed) or run the engaged pipeline.
`reqHistory` is the request's `conversationHistory`, `classify` the
classifier collaborator, `agentReplyText` the reply-generation
collaborator's output, `maxTurns` the configured `settings.MAX_TURNS`. -/
def handle_message (session : SessionData) (msg : Message) (reqHistory : List Message)
    (classify : String → Option LlmResult) (agentReplyText : String)
    (maxTurns : Nat) : TurnResult :=
  let s1 := add_message session msg
  let scored := score_phase s1 msg.text reqHistory classify
  if scored.1.scamDetected = false then
    { session := scored.1
      reply := "Thank you for the message."
      deliveries := 0
      scorerInvoked := !session.scamDetected
      classifierInvoked := scored.2 }
  else
    let engaged := engage_phase scored.1 msg agentReplyText maxTurns
    { session := engaged.1
      reply := agentReplyText
      deliveries := engaged.2
      scorerInvoked := !session.scamDetected
      classifierInvoked := scored.2 }

/-- Modelled from the spec, §4.4: the Stage Engine rule read — as claim C2
does — over the session's *accumulated* intelligence, with the critical
categories payment handles, URLs and bank accounts.  Used only to compare
the claim's spec-side reading with the code's behaviour. -/
def nextStage_spec (messageCount : Nat) (intel : ExtractedIntelligence) : String :=
  if messageCount ≤ 2 then "trust"
  else if messageCount ≤ 6 ∨
      (intel.upiIds = [] ∧ intel.phishingLinks = [] ∧ intel.bankAccounts = []) then
    "extract"
  else "stall"

/-! ### Concrete scenarios

Reachable sessions, produced by running the orchestrator from a fresh
session with the classifier collaborator stubbed to fail (it is never
consulted in these runs: the first message passes the heuristic
fast path, and later turns bypass the gate). -/

/-- A classifier collaborator that always fails (models the `except`
path); the heuristic fast path never consults it in the scenarios below. -/
def stubClassifier : String → Option LlmResult := fun _ => none

/-- Turn 1 of the delivery scenario: `"urgent otp now"` scores `8 ≥ 6`, so
the scam is confirmed heuristically (keywords `otp`, `urgent`). -/
def demoTurn1 : TurnResult :=
  handle_message (create_session "s" 0) ⟨"scammer", "urgent otp now", 0⟩ []
    stubClassifier "Okay." 10

/-- Turn 2: a quiet message on the confirmed session; `totalMessages`
reaches 4 with keywords accumulated, so `should_send_callback` holds. -/
def demoTurn2 : TurnResult :=
  handle_message demoTurn1.session ⟨"scammer", "ok", 2000⟩ [] stubClassifier
    "Okay." 10

/-- Turn 3: another quiet message; `should_send_callback` still holds. -/
def demoTurn3 : TurnResult :=
  handle_message demoTurn2.session ⟨"scammer", "ok again", 4000⟩ []
    stubClassifier "Okay." 10

/-- Turn 1 of the stage scenario: scam confirmed heuristically and a URL
accumulated into the session's `phishingLinks`. -/
def stageTurn1 : TurnResult :=
  handle_message (create_session "c2" 0)
    ⟨"scammer", "urgent otp http://scam.io", 0⟩ [] stubClassifier "Okay." 10

/-- Turn 2 of the stage scenario: a quiet message. -/
def stageTurn2 : TurnResult :=
  handle_message stageTurn1.session ⟨"scammer", "ok", 1⟩ [] stubClassifier
    "Okay." 10

/-- Turn 3 of the stage scenario: a quiet message. -/
def stageTurn3 : TurnResult :=
  handle_message stageTurn2.session ⟨"scammer", "ok", 2⟩ [] stubClassifier
    "Okay." 10

/-- Turn 4 of the stage scenario: the stage is recomputed at message count
7 from the extraction of `"ok"` alone, although the session holds a URL. -/
def stageTurn4 : TurnResult :=
  handle_message stageTurn3.session ⟨"scammer", "ok", 3⟩ [] stubClassifier
    "Okay." 10

/-- An engaged turn whose message carries an email address
(`boss@scam.com`): the extractor reports it under `emails`, a category the
session's intelligence record cannot store. -/
def emailTurn : TurnResult :=
  handle_message demoTurn1.session ⟨"scammer", "reach me at boss@scam.com", 1000⟩
    [] stubClassifier "Okay." 10

/-- A session with the scam flag already confirmed, for witnesses of the
confirmed-session theorems. -/
def confirmedSession : SessionData :=
  { create_session "w" 0 with scamDetected := true }

/-- A one-entry session table holding a session created at time 0, for the
expiry witness. -/
def demoStore : Store :=
  [("s1", create_session "s1" 0)]

/-! ## Helper lemmas -/

theorem sub_dedupUnion_left (a b : List String) : a ⊆ dedupUnion a b :=
  fun _ hx => List.mem_dedup.mpr (List.mem_append_left b hx)

theorem sub_dedupUnion_right (a b : List String) : b ⊆ dedupUnion a b :=
  fun _ hx => List.mem_dedup.mpr (List.mem_append_right a hx)

theorem joinNotes_ne_empty (l : List String) : joinNotes l ≠ "" := by
  unfold joinNotes
  split
  · decide
  · intro h
    have h2 := congrArg String.length h
    rw [String.length_append] at h2
    have e1 : String.length "." = 1 := rfl
    have e2 : String.length "" = 0 := rfl
    rw [e1, e2] at h2
    omega

theorem build_agent_notes_ne_empty (session : SessionData) :
    build_agent_notes session ≠ "" := by
  unfold build_agent_notes
  exact joinNotes_ne_empty _

theorem score_phase_totalMessages (s : SessionData) (t : String)
    (hist : List Message) (c : String → Option LlmResult) :
    ((score_phase s t hist c).1).totalMessages = s.totalMessages := by
  unfold score_phase
  dsimp only
  repeat' split
  all_goals rfl

theorem score_phase_stage (s : SessionData) (t : String)
    (hist : List Message) (c : String → Option LlmResult) :
    ((score_phase s t hist c).1).stage = s.stage := by
  unfold score_phase
  dsimp only
  repeat' split
  all_goals rfl

theorem score_phase_scamDetected (s : SessionData) (t : String)
    (hist : List Message) (c : String → Option LlmResult) :
    ((score_phase s t hist c).1).scamDetected
      = (s.scamDetected || (predict_scam t hist c).1.is_scam) := by
  unfold score_phase
  dsimp only
  by_cases hs : s.scamDetected = true
  · simp [hs]
  · rw [Bool.not_eq_true] at hs
    rw [if_neg (by simp [hs]), hs]
    by_cases hi : (predict_scam t hist c).1.is_scam = true
    · rw [if_pos hi, hi]
      simp only [Bool.false_or]
      repeat' split
      all_goals rfl
    · rw [Bool.not_eq_true] at hi
      rw [if_neg (by simp [hi]), hi]
      simp [hs]

theorem score_phase_upiIds (s : SessionData) (t : String)
    (hist : List Message) (c : String → Option LlmResult) :
    ((score_phase s t hist c).1).extractedIntelligence.upiIds
      = s.extractedIntelligence.upiIds := by
  unfold score_phase
  dsimp only
  repeat' split
  all_goals rfl

theorem score_phase_phishingLinks (s : SessionData) (t : String)
    (hist : List Message) (c : String → Option LlmResult) :
    ((score_phase s t hist c).1).extractedIntelligence.phishingLinks
      = s.extractedIntelligence.phishingLinks := by
  unfold score_phase
  dsimp only
  repeat' split
  all_goals rfl

theorem score_phase_phoneNumbers (s : SessionData) (t : String)
    (hist : List Message) (c : String → Option LlmResult) :
    ((score_phase s t hist c).1).extractedIntelligence.phoneNumbers
      = s.extractedIntelligence.phoneNumbers := by
  unfold score_phase
  dsimp only
  repeat' split
  all_goals rfl

theorem score_phase_bankAccounts (s : SessionData) (t : String)
    (hist : List Message) (c : String → Option LlmResult) :
    ((score_phase s t hist c).1).extractedIntelligence.bankAccounts
      = s.extractedIntelligence.bankAccounts := by
  unfold score_phase
  dsimp only
  repeat' split
  all_goals rfl

theorem score_phase_keywords_sub (s : SessionData) (t : String)
    (hist : List Message) (c : String → Option LlmResult) :
    s.extractedIntelligence.suspiciousKeywords
      ⊆ ((score_phase s t hist c).1).extractedIntelligence.suspiciousKeywords := by
  unfold score_phase
  dsimp only
  repeat' split
  all_goals first
    | exact List.Subset.refl _
    | exact sub_dedupUnion_left _ _

theorem engage_phase_stage (s : SessionData) (msg : Message) (r : String)
    (mt : Nat) :
    ((engage_phase s msg r mt).1).stage
      = determine_conversation_stage s.totalMessages (extract_entities msg.text) := by
  unfold engage_phase
  dsimp only
  repeat' split
  all_goals rfl

theorem engage_phase_scamDetected (s : SessionData) (msg : Message) (r : String)
    (mt : Nat) :
    ((engage_phase s msg r mt).1).scamDetected = s.scamDetected := by
  unfold engage_phase
  dsimp only
  repeat' split
  all_goals rfl

theorem engage_phase_intel (s : SessionData) (msg : Message) (r : String)
    (mt : Nat) :
    ((engage_phase s msg r mt).1).extractedIntelligence
      = update_intelligence s.extractedIntelligence (extract_entities msg.text) := by
  unfold engage_phase
  dsimp only
  repeat' split
  all_goals rfl

theorem engage_phase_totalMessages (s : SessionData) (msg : Message) (r : String)
    (mt : Nat) :
    ((engage_phase s msg r mt).1).totalMessages = s.totalMessages + 1 := by
  unfold engage_phase
  dsimp only
  repeat' split
  all_goals rfl

theorem engage_phase_deliveries_le_one (s : SessionData) (msg : Message)
    (r : String) (mt : Nat) :
    (engage_phase s msg r mt).2 ≤ 1 := by
  unfold engage_phase
  dsimp only
  split
  · rename_i hcb
    rw [if_neg]
    · intro hforced
      exact build_agent_notes_ne_empty _ hforced.2.2
  · rw [Nat.zero_add]
    split
    · exact Nat.le_refl 1
    · exact Nat.zero_le 1

theorem update_intelligence_upiIds (i : ExtractedIntelligence) (ex : Extracted) :
    (update_intelligence i ex).upiIds
      = if ex.upi_ids.isEmpty then i.upiIds
        else dedupUnion i.upiIds ex.upi_ids := by
  unfold update_intelligence
  dsimp only
  repeat' split
  all_goals rfl

theorem update_intelligence_phishingLinks (i : ExtractedIntelligence)
    (ex : Extracted) :
    (update_intelligence i ex).phishingLinks
      = if ex.urls.isEmpty then i.phishingLinks
        else dedupUnion i.phishingLinks ex.urls := by
  unfold update_intelligence
  dsimp only
  repeat' split
  all_goals rfl

theorem update_intelligence_phoneNumbers (i : ExtractedIntelligence)
    (ex : Extracted) :
    (update_intelligence i ex).phoneNumbers
      = if ex.phone_numbers.isEmpty then i.phoneNumbers
        else dedupUnion i.phoneNumbers ex.phone_numbers := by
  unfold update_intelligence
  dsimp only
  repeat' split
  all_goals rfl

theorem update_intelligence_bankAccounts (i : ExtractedIntelligence)
    (ex : Extracted) :
    (update_intelligence i ex).bankAccounts
      = if ex.bank_accounts.isEmpty then i.bankAccounts
        else dedupUnion i.bankAccounts ex.bank_accounts := by
  unfold update_intelligence
  dsimp only
  repeat' split
  all_goals rfl

theorem update_intelligence_suspiciousKeywords (i : ExtractedIntelligence)
    (ex : Extracted) :
    (update_intelligence i ex).suspiciousKeywords = i.suspiciousKeywords := by
  unfold update_intelligence
  dsimp only
  repeat' split
  all_goals rfl

theorem new_sub_ite_dedupUnion (a b : List String) :
    b ⊆ (if b.isEmpty then a else dedupUnion a b) := by
  split
  · rename_i hb
    rw [List.isEmpty_iff] at hb
    rw [hb]
    exact List.nil_subset a
  · exact sub_dedupUnion_right a b

theorem old_sub_ite_dedupUnion (a b : List String) :
    a ⊆ (if b.isEmpty then a else dedupUnion a b) := by
  split
  · exact List.Subset.refl a
  · exact sub_dedupUnion_left a b

theorem storeGet_map_replace (st : Store) (id : String) (s : SessionData)
    (h : st.any (fun e => e.1 == id) = true) :
    storeGet (st.map (fun e => if e.1 == id then (id, s) else e)) id = some s := by
  induction st with
  | nil => simp at h
  | cons e rest ih =>
    by_cases he : e.1 = id
    · simp [storeGet, List.find?, he]
    · have hbe : (e.1 == id) = false := by simp [he]
      have hrest : rest.any (fun e => e.1 == id) = true := by
        rw [List.any_cons, hbe] at h
        simpa using h
      simpa [storeGet, List.find?, hbe] using ih hrest

theorem storeGet_append_fresh (st : Store) (id : String) (s : SessionData)
    (h : st.any (fun e => e.1 == id) = false) :
    storeGet (st ++ [(id, s)]) id = some s := by
  induction st with
  | nil => simp [storeGet, List.find?]
  | cons e rest ih =>
    rw [List.any_cons] at h
    have hbe : (e.1 == id) = false := by
      cases hb : (e.1 == id) <;> simp [hb] at h ⊢
    have hrest : rest.any (fun e => e.1 == id) = false := by
      cases hr : rest.any (fun e => e.1 == id) <;> simp [hbe, hr] at h ⊢
    simp only [List.cons_append, storeGet, List.find?, hbe]
    exact ih hrest

theorem storeGet_set (st : Store) (id : String) (s : SessionData) :
    storeGet (storeSet st id s) id = some s := by
  unfold storeSet
  split
  · rename_i h
    exact storeGet_map_replace st id s h
  · rename_i h
    rw [Bool.not_eq_true] at h
    exact storeGet_append_fresh st id s h

theorem storeGet_erase (st : Store) (id : String) :
    storeGet (storeErase st id) id = none := by
  induction st with
  | nil => rfl
  | cons e rest ih =>
    unfold storeErase at ih ⊢
    by_cases he : e.1 = id
    · have : (e.1 != id) = false := by simp [he]
      rw [List.filter_cons, this]
      exact ih
    · have : (e.1 != id) = true := by simp [he]
      rw [List.filter_cons, this]
      have hbe : (e.1 == id) = false := by simp [he]
      simp only [storeGet, List.find?, hbe]
      exact ih

theorem get_session_expired (st : Store) (id : String) (now timeout : Nat)
    (s : SessionData) (hfound : storeGet st id = some s)
    (hexp : timeout < now - s.createdAt) :
    get_session st id now timeout = (none, storeErase st id) := by
  unfold get_session
  rw [hfound]
  dsimp only
  rw [if_pos hexp]

/-! ## Claims -/

/-- C1, counterexample: the claim says report delivery happens on at most
one turn per session, guarded by an emptiness check of `agentNotes`.  On
the concrete session of `demoTurn1` (scam confirmed on turn 1), the
orchestrator invokes `send_final_result` on turn 2 and again on turn 3:
the `should_send_callback` branch carries no `agentNotes` guard. -/
theorem send_final_result_invoked_on_two_turns :
    demoTurn2.deliveries = 1 ∧ demoTurn3.deliveries = 1 := by
  decide

/-- C1, amended: within a single turn the orchestrator invokes report
delivery at most once — the forced max-turns delivery fires only when
`agentNotes` is still empty, and the `should_send_callback` path has just
set it to the non-empty `build_agent_notes` output.  Across turns, delivery
recurs on every turn where `should_send_callback` holds. -/
theorem send_final_result_at_most_once_per_turn (s : SessionData) (msg : Message)
    (hist : List Message) (classify : String → Option LlmResult)
    (agentReplyText : String) (maxTurns : Nat) :
    (handle_message s msg hist classify agentReplyText maxTurns).deliveries ≤ 1 := by
  unfold handle_message
  dsimp only
  split
  · exact Nat.zero_le 1
  · exact engage_phase_deliveries_le_one _ _ _ _

/-- C2, counterexample: the claim says the stored stage equals the stage
rule applied to the message count and the *accumulated* intelligence.
After four turns whose first message deposited a URL in the session, the
stored stage is `extract` (recomputed from the current quiet message's
empty extraction at message count 7), while the rule on the accumulated
intelligence yields `stall`. -/
theorem stage_not_from_accumulated_intelligence :
    stageTurn4.session.stage = "extract" ∧
    nextStage_spec stageTurn4.session.totalMessages
        stageTurn4.session.extractedIntelligence = "stall" := by
  decide

/-- C2, amended: on every engaged turn the stored stage equals the Stage
Engine applied to the message count right after the incoming message was
appended (one above the previous count, before the agent reply is
appended) and to the extraction of the **current message alone**, not the
session's accumulated intelligence. -/
theorem stage_from_current_message_extraction (s : SessionData) (msg : Message)
    (hist : List Message) (classify : String → Option LlmResult)
    (agentReplyText : String) (maxTurns : Nat)
    (h : (score_phase (add_message s msg) msg.text hist classify).1.scamDetected
          = true) :
    (handle_message s msg hist classify agentReplyText maxTurns).session.stage
      = determine_conversation_stage (s.totalMessages + 1)
          (extract_entities msg.text) := by
  unfold handle_message
  dsimp only
  rw [if_neg (by simp [h])]
  dsimp only
  rw [engage_phase_stage, score_phase_totalMessages]
  rfl

/-- C2, witness for the amended theorem at a concrete engaged turn. -/
theorem stage_from_current_message_extraction_witness :
    (handle_message confirmedSession ⟨"scammer", "ok", 0⟩ [] stubClassifier
        "Okay." 10).session.stage
      = determine_conversation_stage (confirmedSession.totalMessages + 1)
          (extract_entities "ok") :=
  stage_from_current_message_extraction confirmedSession ⟨"scammer", "ok", 0⟩ []
    stubClassifier "Okay." 10 (by decide)

/-- C3, counterexample: the claim says every extracted value of every
category — `emails` included — ends up in the session's accumulated
intelligence.  On an engaged turn over `"reach me at boss@scam.com"`, the
extractor reports `boss@scam.com` under `emails`, but the session's
intelligence record (which has no email category) holds it nowhere. -/
theorem extracted_email_not_accumulated :
    "boss@scam.com" ∈ (extract_entities "reach me at boss@scam.com").emails ∧
    "boss@scam.com" ∉ emailTurn.session.extractedIntelligence.upiIds ∧
    "boss@scam.com" ∉ emailTurn.session.extractedIntelligence.phishingLinks ∧
    "boss@scam.com" ∉ emailTurn.session.extractedIntelligence.phoneNumbers ∧
    "boss@scam.com" ∉ emailTurn.session.extractedIntelligence.bankAccounts ∧
    "boss@scam.com" ∉ emailTurn.session.extractedIntelligence.suspiciousKeywords := by
  decide

/-- C3, amended: on every engaged turn, every value the extractor yields
in the four persisted categories (`upi_ids`, `urls`, `phone_numbers`,
`bank_accounts`) is present afterwards in the matching session category
(`upiIds`, `phishingLinks`, `phoneNumbers`, `bankAccounts`), and every
session category (the keyword set included) grows by set union, never
losing a value; the extractor's `emails` and `ifsc_codes` categories are
not persisted into the session's intelligence. -/
theorem engaged_turn_merges_core_categories (s : SessionData) (msg : Message)
    (hist : List Message) (classify : String → Option LlmResult)
    (agentReplyText : String) (maxTurns : Nat)
    (h : (score_phase (add_message s msg) msg.text hist classify).1.scamDetected
          = true) :
    ((extract_entities msg.text).upi_ids
        ⊆ (handle_message s msg hist classify agentReplyText
            maxTurns).session.extractedIntelligence.upiIds) ∧
    ((extract_entities msg.text).urls
        ⊆ (handle_message s msg hist classify agentReplyText
            maxTurns).session.extractedIntelligence.phishingLinks) ∧
    ((extract_entities msg.text).phone_numbers
        ⊆ (handle_message s msg hist classify agentReplyText
            maxTurns).session.extractedIntelligence.phoneNumbers) ∧
    ((extract_entities msg.text).bank_accounts
        ⊆ (handle_message s msg hist classify agentReplyText
            maxTurns).session.extractedIntelligence.bankAccounts) ∧
    (s.extractedIntelligence.upiIds
        ⊆ (handle_message s msg hist classify agentReplyText
            maxTurns).session.extractedIntelligence.upiIds) ∧
    (s.extractedIntelligence.phishingLinks
        ⊆ (handle_message s msg hist classify agentReplyText
            maxTurns).session.extractedIntelligence.phishingLinks) ∧
    (s.extractedIntelligence.phoneNumbers
        ⊆ (handle_message s msg hist classify agentReplyText
            maxTurns).session.extractedIntelligence.phoneNumbers) ∧
    (s.extractedIntelligence.bankAccounts
        ⊆ (handle_message s msg hist classify agentReplyText
            maxTurns).session.extractedIntelligence.bankAccounts) ∧
    (s.extractedIntelligence.suspiciousKeywords
        ⊆ (handle_message s msg hist classify agentReplyText
            maxTurns).session.extractedIntelligence.suspiciousKeywords) := by
  unfold handle_message
  dsimp only
  rw [if_neg (by simp [h])]
  dsimp only
  rw [engage_phase_intel]
  refine ⟨?_, ?_, ?_, ?_, ?_, ?_, ?_, ?_, ?_⟩
  · rw [update_intelligence_upiIds]
    exact new_sub_ite_dedupUnion _ _
  · rw [update_intelligence_phishingLinks]
    exact new_sub_ite_dedupUnion _ _
  · rw [update_intelligence_phoneNumbers]
    exact new_sub_ite_dedupUnion _ _
  · rw [update_intelligence_bankAccounts]
    exact new_sub_ite_dedupUnion _ _
  · rw [update_intelligence_upiIds, score_phase_upiIds]
    exact old_sub_ite_dedupUnion _ _
  · rw [update_intelligence_phishingLinks, score_phase_phishingLinks]
    exact old_sub_ite_dedupUnion _ _
  · rw [update_intelligence_phoneNumbers, score_phase_phoneNumbers]
    exact old_sub_ite_dedupUnion _ _
  · rw [update_intelligence_bankAccounts, score_phase_bankAccounts]
    exact old_sub_ite_dedupUnion _ _
  · rw [update_intelligence_suspiciousKeywords]
    exact score_phase_keywords_sub (add_message s msg) msg.text hist classify

/-- C3, witness for the amended theorem at a concrete engaged turn whose
message carries a payment handle and a phone number. -/
theorem engaged_turn_merges_core_categories_witness :
    ((extract_entities "pay 9876543210 to scam@upi").upi_ids
        ⊆ (handle_message confirmedSession ⟨"scammer", "pay 9876543210 to scam@upi", 0⟩
            [] stubClassifier "Okay." 10).session.extractedIntelligence.upiIds) ∧
    ((extract_entities "pay 9876543210 to scam@upi").urls
        ⊆ (handle_message confirmedSession ⟨"scammer", "pay 9876543210 to scam@upi", 0⟩
            [] stubClassifier "Okay." 10).session.extractedIntelligence.phishingLinks) ∧
    ((extract_entities "pay 9876543210 to scam@upi").phone_numbers
        ⊆ (handle_message confirmedSession ⟨"scammer", "pay 9876543210 to scam@upi", 0⟩
            [] stubClassifier "Okay." 10).session.extractedIntelligence.phoneNumbers) ∧
    ((extract_entities "pay 9876543210 to scam@upi").bank_accounts
        ⊆ (handle_message confirmedSession ⟨"scammer", "pay 9876543210 to scam@upi", 0⟩
            [] stubClassifier "Okay." 10).session.extractedIntelligence.bankAccounts) ∧
    (confirmedSession.extractedIntelligence.upiIds
        ⊆ (handle_message confirmedSession ⟨"scammer", "pay 9876543210 to scam@upi", 0⟩
            [] stubClassifier "Okay." 10).session.extractedIntelligence.upiIds) ∧
    (confirmedSession.extractedIntelligence.phishingLinks
        ⊆ (handle_message confirmedSession ⟨"scammer", "pay 9876543210 to scam@upi", 0⟩
            [] stubClassifier "Okay." 10).session.extractedIntelligence.phishingLinks) ∧
    (confirmedSession.extractedIntelligence.phoneNumbers
        ⊆ (handle_message confirmedSession ⟨"scammer", "pay 9876543210 to scam@upi", 0⟩
            [] stubClassifier "Okay." 10).session.extractedIntelligence.phoneNumbers) ∧
    (confirmedSession.extractedIntelligence.bankAccounts
        ⊆ (handle_message confirmedSession ⟨"scammer", "pay 9876543210 to scam@upi", 0⟩
            [] stubClassifier "Okay." 10).session.extractedIntelligence.bankAccounts) ∧
    (confirmedSession.extractedIntelligence.suspiciousKeywords
        ⊆ (handle_message confirmedSession ⟨"scammer", "pay 9876543210 to scam@upi", 0⟩
            [] stubClassifier "Okay." 10).session.extractedIntelligence.suspiciousKeywords) :=
  engaged_turn_merges_core_categories confirmedSession
    ⟨"scammer", "pay 9876543210 to scam@upi", 0⟩ [] stubClassifier "Okay." 10
    (by decide)

/-- C4: whenever the heuristic keyword score reaches the threshold 6,
`predict_scam` declares a scam with method `heuristic` and confidence
`min(score / 15, 0.95)` on the fast path, without invoking the classifier
collaborator. -/
theorem predict_scam_heuristic_fastpath (text : String) (history : List Message)
    (classify : String → Option LlmResult)
    (h : 6 ≤ (heuristic_scam_score text).1) :
    (predict_scam text history classify).1.is_scam = true ∧
    (predict_scam text history classify).1.method = "heuristic" ∧
    (predict_scam text history classify).1.confidence
      = min (((heuristic_scam_score text).1 : ℚ) / 15) (95 / 100) ∧
    (predict_scam text history classify).2 = false := by
  unfold predict_scam
  dsimp only
  rw [if_pos h]
  exact ⟨rfl, rfl, rfl, rfl⟩

/-- C4, witness: `"urgent otp"` scores 8 ≥ 6 (`otp` 5, `urgent` 3). -/
theorem predict_scam_heuristic_fastpath_witness :
    (predict_scam "urgent otp" [] (fun _ => none)).1.is_scam = true ∧
    (predict_scam "urgent otp" [] (fun _ => none)).1.method = "heuristic" ∧
    (predict_scam "urgent otp" [] (fun _ => none)).1.confidence
      = min (((heuristic_scam_score "urgent otp").1 : ℚ) / 15) (95 / 100) ∧
    (predict_scam "urgent otp" [] (fun _ => none)).2 = false :=
  predict_scam_heuristic_fastpath "urgent otp" [] (fun _ => none) (by decide)

/-- C5: per category, intelligence merge is commutative, associative and
idempotent, with the empty intelligence as identity. -/
theorem merge_intelligence_comm_assoc_idem_identity (A B C : IntelDict) :
    merge_intelligence A B = merge_intelligence B A ∧
    merge_intelligence (merge_intelligence A B) C
      = merge_intelligence A (merge_intelligence B C) ∧
    merge_intelligence A A = A ∧
    merge_intelligence A empty_intelligence = A := by
  exact ⟨funext fun k => Finset.union_comm (A k) (B k),
    funext fun k => Finset.union_assoc (A k) (B k) (C k),
    funext fun k => Finset.union_self (A k),
    funext fun k => Finset.union_empty (A k)⟩

/-- C6: for every input text, no candidate account number coincides with a
phone number extracted from the same text: the account filter explicitly
subtracts the phone-number set. -/
theorem bank_accounts_disjoint_phone_numbers (text : String) :
    ((extract_entities text).bank_accounts).Disjoint
      ((extract_entities text).phone_numbers) := by
  rw [List.disjoint_left]
  intro a ha hp
  unfold extract_entities at ha hp
  by_cases ht : text = ""
  · rw [if_pos ht] at ha
    exact List.not_mem_nil a ha
  · rw [if_neg ht] at ha hp
    dsimp only at ha hp
    rw [setList, List.mem_dedup, List.mem_filter, Bool.and_eq_true] at ha
    have hc : (setList (findall PHONE_REGEX text)).contains a = false := by
      have := ha.2.2
      cases hcc : (setList (findall PHONE_REGEX text)).contains a
      · rfl
      · rw [hcc] at this
        exact absurd this (by decide)
    have h2 : List.elem a (setList (findall PHONE_REGEX text)) = false := hc
    rw [← @List.elem_iff String _ _ a (setList (findall PHONE_REGEX text))] at hp
    rw [h2] at hp
    exact Bool.false_ne_true hp

/-- C6, witness: a text containing both a phone number and a bank-account
candidate — the shared value `9876543210` cannot sit in both categories. -/
theorem bank_accounts_disjoint_phone_numbers_witness :
    ¬ ("9876543210" ∈ (extract_entities "pay 9876543210 or acct 123456789012").bank_accounts ∧
       "9876543210" ∈ (extract_entities "pay 9876543210 or acct 123456789012").phone_numbers) :=
  fun hb =>
    (List.disjoint_left.mp
      (bank_accounts_disjoint_phone_numbers "pay 9876543210 or acct 123456789012"))
      hb.1 hb.2

/-- C7: `should_send_callback` holds exactly when the scam is confirmed,
at least three messages were exchanged, and some intelligence category is
non-empty or the configured maximum turns is reached; in particular it
fails at message count 2. -/
theorem should_send_callback_iff (s : SessionData) (maxTurns : Nat) :
    (should_send_callback s maxTurns = true ↔
      (s.scamDetected = true ∧ 3 ≤ s.totalMessages ∧
        ((s.extractedIntelligence.upiIds ≠ [] ∨
          s.extractedIntelligence.phishingLinks ≠ [] ∨
          s.extractedIntelligence.phoneNumbers ≠ [] ∨
          s.extractedIntelligence.bankAccounts ≠ [] ∨
          s.extractedIntelligence.suspiciousKeywords ≠ []) ∨
          maxTurns ≤ s.totalMessages))) ∧
    (s.totalMessages = 2 → should_send_callback s maxTurns = false) := by
  constructor
  · unfold should_send_callback
    dsimp only
    simp only [Bool.and_eq_true, decide_eq_true_eq, List.length_pos]
    tauto
  · intro h2
    unfold should_send_callback
    dsimp only
    rw [h2]
    simp

/-- C7, witness: a confirmed-scam session with message count 2 does not
trigger the callback. -/
theorem should_send_callback_iff_witness :
    should_send_callback { confirmedSession with totalMessages := 2 } 10 = false :=
  (should_send_callback_iff { confirmedSession with totalMessages := 2 } 10).2 rfl

/-- C8: once a session is scam-confirmed, the flag survives every further
turn (it is never reset) and the scorer is bypassed on every further
message regardless of its content. -/
theorem scorer_bypassed_once_confirmed (s : SessionData) (msg : Message)
    (hist : List Message) (classify : String → Option LlmResult)
    (agentReplyText : String) (maxTurns : Nat)
    (h : s.scamDetected = true) :
    (handle_message s msg hist classify agentReplyText
        maxTurns).session.scamDetected = true ∧
    (handle_message s msg hist classify agentReplyText
        maxTurns).scorerInvoked = false := by
  have h1 : (add_message s msg).scamDetected = true := h
  have h2 : (score_phase (add_message s msg) msg.text hist classify).1.scamDetected
      = true := by
    rw [score_phase_scamDetected, h1, Bool.true_or]
  unfold handle_message
  dsimp only
  rw [if_neg (by simp [h2])]
  dsimp only
  constructor
  · rw [engage_phase_scamDetected]
    exact h2
  · rw [h]
    rfl

/-- C8, witness: a confirmed session handled on a further message. -/
theorem scorer_bypassed_once_confirmed_witness :
    (handle_message confirmedSession ⟨"scammer", "please send otp", 0⟩ []
        stubClassifier "Okay." 10).session.scamDetected = true ∧
    (handle_message confirmedSession ⟨"scammer", "please send otp", 0⟩ []
        stubClassifier "Okay." 10).scorerInvoked = false :=
  scorer_bypassed_once_confirmed confirmedSession ⟨"scammer", "please send otp", 0⟩
    [] stubClassifier "Okay." 10 rfl

/-- C9: lazy expiry — a stored session whose age strictly exceeds the
timeout is evicted and reported absent by `get_session`, and
`get_or_create_session` then creates (and stores) a fresh session under the
same id. -/
theorem session_lazy_expiry (st : Store) (id : String) (now timeout : Nat)
    (s : SessionData) (hfound : storeGet st id = some s)
    (hexp : timeout < now - s.createdAt) :
    (get_session st id now timeout).1 = none ∧
    storeGet (get_session st id now timeout).2 id = none ∧
    (get_or_create_session st id now timeout).1 = create_session id now ∧
    storeGet (get_or_create_session st id now timeout).2 id
      = some (create_session id now) := by
  have hg := get_session_expired st id now timeout s hfound hexp
  refine ⟨?_, ?_, ?_, ?_⟩
  · rw [hg]
  · rw [hg]
    exact storeGet_erase st id
  · unfold get_or_create_session
    rw [hg]
  · unfold get_or_create_session
    rw [hg]
    dsimp only
    exact storeGet_set (storeErase st id) id (create_session id now)

/-- C9, witness: a session created at time 0 with timeout 30, looked up at
time 31. -/
theorem session_lazy_expiry_witness :
    (get_session demoStore "s1" 31 30).1 = none ∧
    storeGet (get_session demoStore "s1" 31 30).2 "s1" = none ∧
    (get_or_create_session demoStore "s1" 31 30).1 = create_session "s1" 31 ∧
    storeGet (get_or_create_session demoStore "s1" 31 30).2 "s1"
      = some (create_session "s1" 31) :=
  session_lazy_expiry demoStore "s1" 31 30 (create_session "s1" 0) rfl (by decide)

/-- C10: on a rejected turn (scam not confirmed before or by this
message), the handler only appends the incoming message and bumps the
message counter — every other session field is unchanged — and returns the
fixed acknowledgment without any delivery. -/
theorem rejected_turn_frame (s : SessionData) (msg : Message)
    (hist : List Message) (classify : String → Option LlmResult)
    (agentReplyText : String) (maxTurns : Nat)
    (h1 : s.scamDetected = false)
    (h2 : (predict_scam msg.text hist classify).1.is_scam = false) :
    (handle_message s msg hist classify agentReplyText maxTurns).session
        = { s with conversationHistory := s.conversationHistory ++ [msg],
                   totalMessages := s.totalMessages + 1 } ∧
    (handle_message s msg hist classify agentReplyText maxTurns).reply
        = "Thank you for the message." ∧
    (handle_message s msg hist classify agentReplyText maxTurns).deliveries = 0 := by
  have hb : (add_message s msg).scamDetected = false := h1
  have hsc : (score_phase (add_message s msg) msg.text hist classify).1
      = add_message s msg := by
    unfold score_phase
    dsimp only
    rw [if_neg (by simp [hb]), if_neg (by simp [h2])]
  unfold handle_message
  dsimp only
  rw [hsc, if_pos hb]
  exact ⟨rfl, rfl, rfl⟩

/-- C10, witness: a fresh session and a harmless message (score 0, the
classifier stub fails, so the turn is rejected). -/
theorem rejected_turn_frame_witness :
    (handle_message (create_session "w10" 0) ⟨"scammer", "hello", 5⟩ []
        stubClassifier "Okay." 10).session
        = { create_session "w10" 0 with
              conversationHistory := (create_session "w10" 0).conversationHistory ++
                [⟨"scammer", "hello", 5⟩],
              totalMessages := (create_session "w10" 0).totalMessages + 1 } ∧
    (handle_message (create_session "w10" 0) ⟨"scammer", "hello", 5⟩ []
        stubClassifier "Okay." 10).reply = "Thank you for the message." ∧
    (handle_message (create_session "w10" 0) ⟨"scammer", "hello", 5⟩ []
        stubClassifier "Okay." 10).deliveries = 0 :=
  rejected_turn_frame (create_session "w10" 0) ⟨"scammer", "hello", 5⟩ []
    stubClassifier "Okay." 10 rfl (by decide)

end Honeypot
